import Mathlib

/-!
Shallow embedding of the worker-pool engine (`workerpool/workerpool..go`).

Channels are modelled as lists plus a closed flag; `context.Context`
cancellation is a boolean; atomic counters are `Nat` (they only ever
increment, so 64-bit overflow is unreachable for the stated properties);
durations are `Nat` nanoseconds.  `select` statements whose cases can be
simultaneously ready take a boolean oracle that picks the branch, mirroring
Go's nondeterministic choice among ready cases.
-/

namespace Workerpool

/-- Durations in nanoseconds, mirroring Go `time.Duration`.  The code only
compares timeouts against zero (`> 0`), so nonpositive Go durations are
represented by `0`. -/
abbrev Duration := Nat

/-- Go `time.Second` in nanoseconds. -/
def second : Duration := 1000000000

/-- The observable behaviour of invoking a task's `Execute` function:
it returns a value (`ok`), returns a non-nil error (`err`), or terminates
abnormally (`panicked`). -/
inductive Outcome where
  | ok
  | err
  | panicked
deriving DecidableEq, Repr

/-- `Task` from the source: identifier, work function, optional per-task
timeout.  The work function is embedded by its invocation behaviour; `none`
models a nil `Execute` field (invoking a nil Go function panics). -/
structure Task where
  id : String
  exec : Option Outcome
  timeout : Duration
deriving DecidableEq, Repr

/-- `Result` from the source, restricted to the fields the verified
properties mention: the task identifier and whether the `Error` field is
non-nil.  `Value`, timestamps and duration are clock outputs irrelevant to
the claims. -/
structure Result where
  taskId : String
  isErr : Bool
deriving DecidableEq, Repr

/-- The shared state of a `WorkerPool`: configuration, the two bounded
channels (list + closed flag), the atomic counters, the root cancellation,
the `isRunning` flag and the `sync.Once` guard of `Stop`.  `panicsHandled`
counts invocations of the configured panic handler, and `panicHandlerNil`
models `WithPanicHandler(nil)` (the worker checks `panicHandler != nil`). -/
structure WorkerPool where
  name : String
  minWorkers : Nat
  maxWorkers : Nat
  queueCapacity : Nat
  taskQueue : List Task
  taskQueueClosed : Bool
  results : List Result
  resultChanClosed : Bool
  activeWorkers : Nat
  totalTasks : Nat
  completedTasks : Nat
  failedTasks : Nat
  cancelled : Bool
  isRunning : Bool
  shutdownOnceFired : Bool
  autoScale : Bool
  panicHandlerNil : Bool
  panicsHandled : Nat
  taskTimeout : Duration
deriving DecidableEq, Repr

/-- The functional options accepted by the constructor.  `WithLogger` and
`WithMetrics` replace sinks that the embedding does not observe. -/
inductive PoolOption where
  | withName (s : String)
  | withLogger
  | withMetrics
  | withQueueCapacity (n : Nat)
  | withAutoScaling
  | withPanicHandler (isNil : Bool)
  | withDefaultTaskTimeout (d : Duration)
deriving DecidableEq, Repr

/-- Application of one functional option, as each `Option` closure does. -/
def applyOption (wp : WorkerPool) : PoolOption → WorkerPool
  | .withName s => { wp with name := s }
  | .withLogger => wp
  | .withMetrics => wp
  | .withQueueCapacity n => { wp with queueCapacity := n }
  | .withAutoScaling => { wp with autoScale := true }
  | .withPanicHandler isNil => { wp with panicHandlerNil := isNil }
  | .withDefaultTaskTimeout d => { wp with taskTimeout := d }

/-- `NewWorkerPool`: clamps `minWorkers` to at least 1 and `maxWorkers` to at
least `minWorkers`, fills in the defaults (queue capacity `10·maxWorkers`,
default task timeout 30 s, non-nil panic handler), then applies the options
in order.  The channels are created after the options run, so an option that
changes `queueCapacity` takes effect; here capacity is read at each use site
from the final field value. -/
def NewWorkerPool (minWorkers maxWorkers : Int) (options : List PoolOption) :
    WorkerPool :=
  let minW : Int := if minWorkers ≤ 0 then 1 else minWorkers
  let maxW : Int := if maxWorkers < minW then minW else maxWorkers
  let wp : WorkerPool :=
    { name := "worker-pool"
      minWorkers := minW.toNat
      maxWorkers := maxW.toNat
      queueCapacity := maxW.toNat * 10
      taskQueue := []
      taskQueueClosed := false
      results := []
      resultChanClosed := false
      activeWorkers := 0
      totalTasks := 0
      completedTasks := 0
      failedTasks := 0
      cancelled := false
      isRunning := false
      shutdownOnceFired := false
      autoScale := false
      panicHandlerNil := false
      panicsHandled := 0
      taskTimeout := 30 * second }
  options.foldl applyOption wp

/-- The errors `Submit` can return. -/
inductive SubmitError where
  | nilTask
  | notRunning
  | shuttingDown
  | queueFull
deriving DecidableEq, Repr

/-- `Submit`.  In source order: reject a nil work function; if the id is
empty, increment `totalTasks` atomically and assign `task-N`; reject when not
running; then a `select` over root cancellation, a queue send, and a
`default` (queue full).  When the cancellation and the send are both ready,
Go picks one at random; `pickCancel` resolves that choice.  A send is ready
iff the queue has room (a send on a closed queue would panic in Go and is
unreachable here because `Stop` cancels before closing). -/
def Submit (wp : WorkerPool) (task : Task) (pickCancel : Bool) :
    WorkerPool × Option SubmitError :=
  if task.exec = none then (wp, some .nilTask)
  else
    let n := wp.totalTasks + 1
    let wp1 := if task.id = "" then { wp with totalTasks := n } else wp
    let task1 := if task.id = "" then { task with id := "task-" ++ toString n }
                 else task
    if wp1.isRunning = false then (wp1, some .notRunning)
    else
      let sendReady : Prop :=
        wp1.taskQueue.length < wp1.queueCapacity ∧ wp1.taskQueueClosed = false
    if wp1.cancelled = true ∧ (¬sendReady ∨ pickCancel = true) then
      (wp1, some .shuttingDown)
    else if sendReady then
      ({ wp1 with taskQueue := wp1.taskQueue ++ [task1] }, none)
    else
      (wp1, some .queueFull)

/-- `startWorker`: increments the atomic active-worker count (the spawned
goroutine's loop is modelled by `workerStep`). -/
def startWorker (wp : WorkerPool) : WorkerPool :=
  { wp with activeWorkers := wp.activeWorkers + 1 }

/-- The `for i := 0; i < n; i++ { wp.startWorker() }` loop. -/
def startWorkers : Nat → WorkerPool → WorkerPool
  | 0, wp => wp
  | n + 1, wp => startWorkers n (startWorker wp)

/-- `adjustWorkers`, the body of one autoscaler tick: do nothing unless
running; read queue size `q` and worker count `w`; when `q > w` and
`w < maxWorkers` start `min w (maxWorkers − w)` workers; the scale-down
branch only logs and changes nothing. -/
def adjustWorkers (wp : WorkerPool) : WorkerPool :=
  if wp.isRunning = false then wp
  else
    let queueSize := wp.taskQueue.length
    let currentWorkers := wp.activeWorkers
    if queueSize > currentWorkers ∧ currentWorkers < wp.maxWorkers then
      let toAdd := min currentWorkers (wp.maxWorkers - currentWorkers)
      if toAdd > 0 then startWorkers toAdd wp else wp
    else wp

/-- `Stop`.  `sync.Once` guarantees the body runs at most once; the body
returns immediately when `isRunning` is false.  Otherwise it clears
`isRunning`, fires the root cancellation, drains the queue, waits on the
`WaitGroup` for every worker to exit (each worker's deferred
`activeWorkers−−` has run when `Wait` returns, hence the count is 0), and
closes both channels.  The whole call is modelled as one state transformer
over its observable before/after states. -/
def Stop (wp : WorkerPool) : WorkerPool :=
  if wp.shutdownOnceFired = true then wp
  else
    let wp1 := { wp with shutdownOnceFired := true }
    if wp1.isRunning = false then wp1
    else
      { wp1 with
        isRunning := false
        cancelled := true
        taskQueue := []
        activeWorkers := 0
        taskQueueClosed := true
        resultChanClosed := true }

/-- `Pause`: clears `isRunning` when set (the source reuses `isRunning` as
the pause flag); workers stay alive. -/
def Pause (wp : WorkerPool) : WorkerPool :=
  if wp.isRunning = false then wp else { wp with isRunning := false }

/-- `Resume`: sets `isRunning` when clear. -/
def Resume (wp : WorkerPool) : WorkerPool :=
  if wp.isRunning = true then wp else { wp with isRunning := true }

/-- The receive-until-`default` loop of `Drain`, counting received tasks.
A receive from the queue is ready whenever a buffered task remains — and
also, once the channel is closed, forever (a receive on a closed channel
yields a zero value immediately).  So on a closed queue the `default`
branch is never taken and the Go loop never returns; that divergence is
`none`. -/
def drainLoop : List Task → Bool → Nat → Option Nat
  | [], closed, count => if closed then none else some count
  | _ :: rest, closed, count => drainLoop rest closed (count + 1)

/-- `Drain`: remove all queued tasks without executing them and return the
count; diverges (`none`) when the task queue has been closed. -/
def Drain (wp : WorkerPool) : Option (WorkerPool × Nat) :=
  (drainLoop wp.taskQueue wp.taskQueueClosed 0).map
    (fun n => ({ wp with taskQueue := [] }, n))

/-- The deadline a worker derives for a dequeued task.  Both forms are
children of the root context `wp.ctx`: `withTimeout d` is
`context.WithTimeout(wp.ctx, d)` and `cancelOnly` is
`context.WithCancel(wp.ctx)`. -/
inductive Deadline where
  | withTimeout (d : Duration)
  | cancelOnly
deriving DecidableEq, Repr

/-- Lines 277–283 of the worker: the task's own timeout when positive, else
the pool default when positive, else cancellation only. -/
def deriveDeadline (poolDefault taskTimeout : Duration) : Deadline :=
  if taskTimeout > 0 then .withTimeout taskTimeout
  else if poolDefault > 0 then .withTimeout poolDefault
  else .cancelOnly

/-- Invoking the embedded work function; calling a nil Go function value
panics. -/
def invokeExec : Option Outcome → Outcome
  | none => .panicked
  | some o => o

/-- Where a single worker goroutine stands: at the top of its dequeue loop,
blocked publishing a result, or exited (goroutine returned, deferred
handlers run). -/
inductive Phase where
  | looping
  | publishing (r : Result)
  | done
deriving DecidableEq, Repr

/-- What one worker step did, for stating trace properties. -/
inductive Event where
  | blockedStep
  | shutdownExit
  | closedExit
  | invoked (t : Task) (d : Deadline) (released : Bool) (o : Outcome)
  | resultPublished (r : Result)
  | resultDiscarded (r : Result)
deriving DecidableEq, Repr

/-- A worker goroutine exit: the deferred `activeWorkers−−` runs. -/
def exitWorker (wp : WorkerPool) : WorkerPool :=
  { wp with activeWorkers := wp.activeWorkers - 1 }

/-- One step of a worker goroutine (`worker` plus the deferred recover in
`startWorker`).  In phase `looping` it runs the dequeue `select`: the
cancellation case is ready iff the root context is cancelled; the receive is
ready iff the queue is nonempty or closed; `pickCancel` resolves the choice
when both are ready.  On a dequeued task it derives the deadline, invokes
the work function, and — on a normal return — calls `cancel()` (releasing
the deadline), bumps `failedTasks` iff the error is non-nil, bumps
`completedTasks`, and proceeds to publish.  On a panic the goroutine
unwinds: `cancel()` is skipped, the deferred recover passes the value to
the panic handler when non-nil, and the goroutine exits — the loop is not
resumed and no counter changes.  In phase `publishing` it runs the result
`select`: on cancellation it returns, discarding the result (`pubCancel`
resolves the choice when the stream also has room). -/
def workerStep (wp : WorkerPool) (phase : Phase)
    (pickCancel pubCancel : Bool) : WorkerPool × Phase × Event :=
  match phase with
  | .done => (wp, .done, .blockedStep)
  | .publishing r =>
    let sendReady : Prop :=
      wp.results.length < wp.queueCapacity ∧ wp.resultChanClosed = false
    if wp.cancelled = true ∧ (¬sendReady ∨ pubCancel = true) then
      (exitWorker wp, .done, .resultDiscarded r)
    else if sendReady then
      ({ wp with results := wp.results ++ [r] }, .looping, .resultPublished r)
    else
      (wp, .publishing r, .blockedStep)
  | .looping =>
    let dequeueReady : Prop :=
      wp.taskQueue ≠ [] ∨ wp.taskQueueClosed = true
    if wp.cancelled = true ∧ (¬dequeueReady ∨ pickCancel = true) then
      (exitWorker wp, .done, .shutdownExit)
    else
      match wp.taskQueue with
      | [] =>
        if wp.taskQueueClosed = true then (exitWorker wp, .done, .closedExit)
        else (wp, .looping, .blockedStep)
      | t :: rest =>
        let d := deriveDeadline wp.taskTimeout t.timeout
        let wp1 := { wp with taskQueue := rest }
        match invokeExec t.exec with
        | .panicked =>
          let wp2 :=
            if wp1.panicHandlerNil then wp1
            else { wp1 with panicsHandled := wp1.panicsHandled + 1 }
          (exitWorker wp2, .done, .invoked t d false .panicked)
        | .ok =>
          ({ wp1 with completedTasks := wp1.completedTasks + 1 },
           .publishing ⟨t.id, false⟩, .invoked t d true .ok)
        | .err =>
          ({ wp1 with failedTasks := wp1.failedTasks + 1,
                      completedTasks := wp1.completedTasks + 1 },
           .publishing ⟨t.id, true⟩, .invoked t d true .err)

/-- Run a worker for a list of select-choice oracles, collecting the events
in order. -/
def runSteps : WorkerPool → Phase → List (Bool × Bool) →
    WorkerPool × Phase × List Event
  | wp, ph, [] => (wp, ph, [])
  | wp, ph, c :: cs =>
    let s := workerStep wp ph c.1 c.2
    let r := runSteps s.1 s.2.1 cs
    (r.1, r.2.1, s.2.2 :: r.2.2)

/-- Number of task invocations in a trace that returned a value. -/
def countOk : List Event → Nat
  | [] => 0
  | .invoked _ _ _ .ok :: es => countOk es + 1
  | _ :: es => countOk es

/-- Number of task invocations in a trace that returned a non-nil error. -/
def countErr : List Event → Nat
  | [] => 0
  | .invoked _ _ _ .err :: es => countErr es + 1
  | _ :: es => countErr es

/-! Concrete states used by counterexamples and witnesses.  They are built
through the constructor and the operations, so each is reachable. -/

/-- A task that returns successfully. -/
def tOk : Task := { id := "t-ok", exec := some .ok, timeout := 0 }

/-- A second successful task, with its own id. -/
def tOk2 : Task := { id := "t-ok2", exec := some .ok, timeout := 0 }

/-- A task whose work function panics. -/
def tBoom : Task := { id := "t-boom", exec := some .panicked, timeout := 0 }

/-- A task submitted with an empty identifier. -/
def tNoId : Task := { id := "", exec := some .ok, timeout := 0 }

/-- A running single-worker pool with queue capacity 1 whose queue is full. -/
def poolFull : WorkerPool :=
  { NewWorkerPool 1 1 [.withQueueCapacity 1] with
    isRunning := true, activeWorkers := 1, taskQueue := [tOk] }

/-- A running pool about to execute a panicking task, then a normal one. -/
def poolBoom : WorkerPool :=
  { NewWorkerPool 1 1 [] with
    isRunning := true, activeWorkers := 1, taskQueue := [tBoom, tOk] }

/-- A running pool that has been cancelled while a task is still queued. -/
def poolCancelled : WorkerPool :=
  { NewWorkerPool 1 1 [] with
    isRunning := true, activeWorkers := 1, taskQueue := [tOk],
    cancelled := true }

/-- A running pool with one queued task, then paused. -/
def poolPaused : WorkerPool :=
  Pause { NewWorkerPool 1 1 [] with
          isRunning := true, activeWorkers := 1, taskQueue := [tOk] }

/-- A started single-worker pool. -/
def poolRunning : WorkerPool :=
  { NewWorkerPool 1 1 [] with isRunning := true, activeWorkers := 1 }

/-- A running pool that has been stopped (so its task queue is closed). -/
def poolStopped : WorkerPool := Stop poolRunning

/-- A failing task carrying its own 1-second timeout. -/
def tSlow : Task := { id := "t-slow", exec := some .err, timeout := second }

/-- A running pool whose next task has a per-task timeout. -/
def poolTimed : WorkerPool :=
  { NewWorkerPool 1 1 [] with
    isRunning := true, activeWorkers := 1, taskQueue := [tSlow] }

/-- A running pool with backlog for the autoscaler: 3 queued tasks, 1
worker, max 8. -/
def poolBacklog : WorkerPool :=
  { NewWorkerPool 1 8 [] with
    isRunning := true, activeWorkers := 1, taskQueue := [tOk, tOk2, tBoom] }

/-! Theorems. -/

/-- Claim C7: `Stop` is idempotent — for every pool state, calling `Stop`
twice yields exactly the state of a single call, the `sync.Once` making
every call after the first a no-op. -/
theorem c7_stop_idempotent (wp : WorkerPool) : Stop (Stop wp) = Stop wp := by
  by_cases h : wp.shutdownOnceFired = true
  · have e : Stop wp = wp := by simp [Stop, h]
    rw [e, e]
  · by_cases h2 : wp.isRunning = false
    · have e : Stop wp = { wp with shutdownOnceFired := true } := by
        simp [Stop, h, h2]
      rw [e]
      simp [Stop]
    · have e : Stop wp =
          { wp with
            isRunning := false
            cancelled := true
            taskQueue := []
            activeWorkers := 0
            taskQueueClosed := true
            resultChanClosed := true
            shutdownOnceFired := true } := by
        simp [Stop, h, h2]
      rw [e]
      simp [Stop]

/-- Claim C3 (amended), counterexample: from the Paused state (reached by
`Pause` on a running pool with a queued task) the first `Stop` call does not
fire the root cancellation, does not drain the queue, and closes neither
channel; a second call changes nothing either, the `sync.Once` being spent. -/
theorem c3_stop_from_paused_is_noop :
    (Stop poolPaused).cancelled = false ∧
    (Stop poolPaused).taskQueue = [tOk] ∧
    (Stop poolPaused).taskQueueClosed = false ∧
    (Stop poolPaused).resultChanClosed = false ∧
    (Stop (Stop poolPaused)).cancelled = false := by decide

/-- Claim C3 (amended): `Stop` performs the shutdown — firing the root
cancellation, draining the queue without executing, waiting for every worker
to exit and closing both channels — only when its `sync.Once` is unspent and
the pool is in the Running state; whenever `isRunning` is false (Created,
Paused, or already stopped) the call leaves the cancellation, the queue and
both channels untouched, merely consuming the `sync.Once`. -/
theorem c3_stop_requires_running (wp : WorkerPool) :
    (wp.shutdownOnceFired = false → wp.isRunning = true →
      (Stop wp).cancelled = true ∧ (Stop wp).taskQueue = [] ∧
      (Stop wp).taskQueueClosed = true ∧ (Stop wp).resultChanClosed = true ∧
      (Stop wp).activeWorkers = 0 ∧ (Stop wp).isRunning = false) ∧
    (wp.isRunning = false →
      (Stop wp).cancelled = wp.cancelled ∧
      (Stop wp).taskQueue = wp.taskQueue ∧
      (Stop wp).taskQueueClosed = wp.taskQueueClosed ∧
      (Stop wp).resultChanClosed = wp.resultChanClosed ∧
      (Stop wp).shutdownOnceFired = true) := by
  constructor
  · intro h1 h2
    simp [Stop, h1, h2]
  · intro h
    by_cases h1 : wp.shutdownOnceFired = true
    · simp [Stop, h1, h]
    · simp [Stop, h1, h]

/-- Witness for claim C3's amended theorem at two concrete states: the
running pool is fully shut down, the paused pool is left uncancelled. -/
theorem c3_stop_requires_running_witness :
    (Stop poolRunning).cancelled = true ∧
    (Stop poolPaused).cancelled = poolPaused.cancelled :=
  ⟨((c3_stop_requires_running poolRunning).1 rfl rfl).1,
   ((c3_stop_requires_running poolPaused).2 rfl).1⟩

/-- The receive loop of `Drain` on a queue that is still open returns the
number of buffered tasks. -/
theorem drainLoop_open (q : List Task) (count : Nat) :
    drainLoop q false count = some (count + q.length) := by
  induction q generalizing count with
  | nil => simp [drainLoop]
  | cons t rest ih => simp [drainLoop, ih]; omega

/-- Claim C10 (amended), counterexample: on a stopped pool the task queue is
closed, so every receive in `Drain`'s loop is immediately ready and the
`default` branch is never reached — `Drain` never returns, rather than
returning the count 0 the claim requires. -/
theorem c10_drain_diverges_after_stop :
    Drain poolStopped = none ∧ poolStopped.taskQueueClosed = true ∧
    poolStopped.taskQueue = [] := by decide

/-- Claim C10 (amended): for every pool state whose task queue has not been
closed, `Drain` removes exactly the queued tasks, returns their count, and
leaves every other component of the state unchanged — the counters keep
their values and no drained task is counted completed or failed.  Once the
queue is closed (after `Stop`), `Drain` never returns. -/
theorem c10_drain_frame (wp : WorkerPool) (h : wp.taskQueueClosed = false) :
    Drain wp = some ({ wp with taskQueue := [] }, wp.taskQueue.length) := by
  simp [Drain, h, drainLoop_open]

/-- Witness for claim C10's amended theorem: draining the running pool whose
queue holds one task returns 1 and empties only the queue. -/
theorem c10_drain_frame_witness :
    Drain poolFull = some ({ poolFull with taskQueue := [] },
      poolFull.taskQueue.length) :=
  c10_drain_frame poolFull rfl

/-- Claim C2 (amended), counterexample: with the queue full and a task
submitted under an empty identifier, `Submit` returns the queue-full failure
yet has already incremented `totalTasks` (the id is assigned before the
queue is tried). -/
theorem c2_queueFull_increments_totalTasks :
    (Submit poolFull tNoId false).2 = some SubmitError.queueFull ∧
    poolFull.totalTasks = 0 ∧
    (Submit poolFull tNoId false).1.totalTasks = 1 := by decide

/-- Claim C2 (amended): when `Submit` returns the queue-full failure, the
task is not enqueued and the pool state is unchanged except that
`totalTasks` has been incremented exactly when the task was submitted with
an empty identifier (the id counter is bumped before the queue is tried);
with a nonempty identifier the call has no side effects. -/
theorem c2_submit_queueFull_effect (wp : WorkerPool) (t : Task) (pc : Bool)
    (h : (Submit wp t pc).2 = some SubmitError.queueFull) :
    (Submit wp t pc).1 =
      { wp with totalTasks :=
          wp.totalTasks + (if t.id = "" then 1 else 0) } := by
  by_cases hid : t.id = ""
  · simp only [Submit, hid, if_pos, if_true] at h ⊢
    split_ifs at h ⊢ <;> first | rfl | simp_all
  · simp only [Submit, hid, if_neg, if_false] at h ⊢
    split_ifs at h ⊢ <;> first | rfl | simp_all

/-- Witness for claim C2's amended theorem: a queue-full rejection of a task
that carries its own identifier leaves the state exactly as described. -/
theorem c2_submit_queueFull_effect_witness :
    (Submit poolFull tOk2 false).1 =
      { poolFull with totalTasks :=
          poolFull.totalTasks + (if tOk2.id = "" then 1 else 0) } :=
  c2_submit_queueFull_effect poolFull tOk2 false (by decide)

/-- Claim C1 (amended), counterexample: executing the queued panicking task
leaves the worker goroutine exited (`Phase.done`) — the dequeue loop is not
resumed and the subsequently queued normal task can no longer be picked up
by this worker — and the failed counter is not incremented; only the panic
handler ran. -/
theorem c1_panic_kills_worker :
    (workerStep poolBoom .looping false false).2.1 = Phase.done ∧
    (workerStep poolBoom .looping false false).1.failedTasks = 0 ∧
    (workerStep poolBoom .looping false false).1.completedTasks = 0 ∧
    (workerStep poolBoom .looping false false).1.panicsHandled = 1 ∧
    (workerStep poolBoom .looping false false).1.activeWorkers = 0 ∧
    (workerStep poolBoom .looping false false).1.taskQueue = [tOk] ∧
    (workerStep (workerStep poolBoom .looping false false).1
        Phase.done false false).2.2 = Event.blockedStep := by decide

/-- Claim C1 (amended): when a dequeued task's work function panics, the
deferred recover at the top of the worker goroutine catches it and passes
the opaque value to the configured (non-nil) fault handler, but the failed
and completed counters are not incremented and the goroutine exits — its
deferred decrement of the active-worker count runs and the dequeue loop is
not resumed, so a later task must wait for some other worker. -/
theorem c1_panic_exits_worker (wp : WorkerPool) (t : Task) (rest : List Task)
    (pc pb : Bool) (hq : wp.taskQueue = t :: rest) (hc : wp.cancelled = false)
    (hp : invokeExec t.exec = .panicked) (hh : wp.panicHandlerNil = false) :
    (workerStep wp .looping pc pb).2.1 = Phase.done ∧
    (workerStep wp .looping pc pb).2.2 =
      .invoked t (deriveDeadline wp.taskTimeout t.timeout) false .panicked ∧
    (workerStep wp .looping pc pb).1.panicsHandled = wp.panicsHandled + 1 ∧
    (workerStep wp .looping pc pb).1.failedTasks = wp.failedTasks ∧
    (workerStep wp .looping pc pb).1.completedTasks = wp.completedTasks ∧
    (workerStep wp .looping pc pb).1.activeWorkers = wp.activeWorkers - 1 ∧
    (workerStep wp .looping pc pb).1.taskQueue = rest := by
  simp [workerStep, exitWorker, hq, hc, hp, hh]

/-- Witness for claim C1's amended theorem at the concrete panicking pool. -/
theorem c1_panic_exits_worker_witness :
    (workerStep poolBoom .looping false false).2.1 = Phase.done ∧
    (workerStep poolBoom .looping false false).2.2 =
      .invoked tBoom (deriveDeadline poolBoom.taskTimeout tBoom.timeout)
        false .panicked ∧
    (workerStep poolBoom .looping false false).1.panicsHandled =
      poolBoom.panicsHandled + 1 ∧
    (workerStep poolBoom .looping false false).1.failedTasks =
      poolBoom.failedTasks ∧
    (workerStep poolBoom .looping false false).1.completedTasks =
      poolBoom.completedTasks ∧
    (workerStep poolBoom .looping false false).1.activeWorkers =
      poolBoom.activeWorkers - 1 ∧
    (workerStep poolBoom .looping false false).1.taskQueue = [tOk] :=
  c1_panic_exits_worker poolBoom tBoom [tOk] false false rfl rfl rfl rfl

/-- Claim C4 (amended), counterexample: the root context of `poolCancelled`
is cancelled while a task is still queued, yet the worker's dequeue `select`
may pick the ready receive case (Go chooses among ready cases at random) —
the step dequeues the pending task and calls its work function after the
cancellation has fired, and the completed counter records the execution. -/
theorem c4_execute_after_cancel :
    poolCancelled.cancelled = true ∧
    (workerStep poolCancelled .looping false false).2.2 =
      Event.invoked tOk (Deadline.withTimeout (30 * second)) true .ok ∧
    (workerStep poolCancelled .looping false false).1.completedTasks = 1 := by
  decide

/-- Claim C4 (amended): after the root cancellation has fired, a worker that
takes the cancellation branch of its `select` — or whose queue holds no
pending task — exits without invoking any work function; but because Go's
`select` chooses among simultaneously ready cases, a worker may instead
dequeue and execute tasks still queued at cancellation time. -/
theorem c4_cancelled_no_dequeue (wp : WorkerPool) (pc pb : Bool)
    (hc : wp.cancelled = true) (h : pc = true ∨ wp.taskQueue = []) :
    (workerStep wp .looping pc pb).2.1 = Phase.done ∧
    ((workerStep wp .looping pc pb).2.2 = Event.shutdownExit ∨
     (workerStep wp .looping pc pb).2.2 = Event.closedExit) := by
  rcases h with hpc | hq
  · simp [workerStep, hc, hpc]
  · by_cases hcl : wp.taskQueueClosed = true
    · by_cases hpc : pc = true
      · simp [workerStep, hc, hpc]
      · simp [workerStep, hc, hpc, hq, hcl]
    · simp [workerStep, hc, hq, hcl]

/-- Witness for claim C4's amended theorem: on the stopped pool (cancelled,
empty closed queue) the worker exits without executing anything. -/
theorem c4_cancelled_no_dequeue_witness :
    (workerStep poolStopped .looping false false).2.1 = Phase.done ∧
    ((workerStep poolStopped .looping false false).2.2 =
        Event.shutdownExit ∨
     (workerStep poolStopped .looping false false).2.2 =
        Event.closedExit) :=
  c4_cancelled_no_dequeue poolStopped false false (by decide)
    (Or.inr (by decide))

/-- The deadline-derivation branch structure of the worker, stated as the
spec's formula. -/
theorem deriveDeadline_branches (pd tt : Duration) :
    (0 < tt → deriveDeadline pd tt = .withTimeout tt) ∧
    (tt = 0 → 0 < pd → deriveDeadline pd tt = .withTimeout pd) ∧
    (tt = 0 → pd = 0 → deriveDeadline pd tt = .cancelOnly) := by
  refine ⟨fun h1 => ?_, fun h1 h2 => ?_, fun h1 h2 => ?_⟩ <;>
    simp_all [deriveDeadline]

/-- Claim C5 (confirmed): whatever deadline accompanies a task invocation in
a worker step is the root cancellation composed with the task's own timeout
when positive, else the pool default when positive, else no timeout at all;
and when the task returns (does not panic), the deadline has been released
(`cancel()` runs right after `Execute`; on a panic it is skipped). -/
theorem c5_deadline_derivation (wp : WorkerPool) (pc pb : Bool) (t : Task)
    (d : Deadline) (rel : Bool) (o : Outcome)
    (h : (workerStep wp .looping pc pb).2.2 = .invoked t d rel o) :
    d = deriveDeadline wp.taskTimeout t.timeout ∧
    (0 < t.timeout → d = .withTimeout t.timeout) ∧
    (t.timeout = 0 → 0 < wp.taskTimeout → d = .withTimeout wp.taskTimeout) ∧
    (t.timeout = 0 → wp.taskTimeout = 0 → d = .cancelOnly) ∧
    (o ≠ .panicked → rel = true) := by
  have hd : d = deriveDeadline wp.taskTimeout t.timeout ∧
      (o ≠ .panicked → rel = true) := by
    simp only [workerStep] at h
    split at h
    · simp at h
    · split at h
      · split at h <;> simp at h
      · split at h <;>
          · simp only [Event.invoked.injEq] at h
            obtain ⟨ht, hdd, hrel, ho⟩ := h
            subst ht
            constructor
            · exact hdd.symm
            · intro hne
              simp_all
  refine ⟨hd.1, ?_, ?_, ?_, hd.2⟩
  · intro h1
    rw [hd.1]
    exact (deriveDeadline_branches wp.taskTimeout t.timeout).1 h1
  · intro h1 h2
    rw [hd.1]
    exact (deriveDeadline_branches wp.taskTimeout t.timeout).2.1 h1 h2
  · intro h1 h2
    rw [hd.1]
    exact (deriveDeadline_branches wp.taskTimeout t.timeout).2.2 h1 h2

/-- Witness for claim C5 at a concrete step: the queued task carries its own
1-second timeout, which wins over the pool default. -/
theorem c5_deadline_derivation_witness :
    Deadline.withTimeout second =
      deriveDeadline poolTimed.taskTimeout tSlow.timeout ∧
    (0 < tSlow.timeout →
      Deadline.withTimeout second = .withTimeout tSlow.timeout) ∧
    (tSlow.timeout = 0 → 0 < poolTimed.taskTimeout →
      Deadline.withTimeout second = .withTimeout poolTimed.taskTimeout) ∧
    (tSlow.timeout = 0 → poolTimed.taskTimeout = 0 →
      Deadline.withTimeout second = .cancelOnly) ∧
    (Outcome.err ≠ .panicked → true = true) :=
  c5_deadline_derivation poolTimed false false tSlow
    (Deadline.withTimeout second) true .err (by decide)

/-- Counter bookkeeping of a single worker step: `completedTasks` grows by
one exactly on an invocation event that returned (ok or err), and
`failedTasks` grows by one exactly on an invocation event that returned an
error; a panic changes neither counter. -/
theorem workerStep_counts (wp : WorkerPool) (ph : Phase) (a b : Bool)
    (wp' : WorkerPool) (ph' : Phase) (e : Event)
    (h : workerStep wp ph a b = (wp', ph', e)) :
    wp'.completedTasks = wp.completedTasks + countOk [e] + countErr [e] ∧
    wp'.failedTasks = wp.failedTasks + countErr [e] := by
  simp only [workerStep] at h
  repeat' split at h
  all_goals
    (injection h with h1 h23; injection h23 with h2 h3;
     subst h1; subst h3; simp [countOk, countErr, exitWorker])

/-- Splitting the success count of a trace at its head. -/
theorem countOk_cons (e : Event) (es : List Event) :
    countOk (e :: es) = countOk [e] + countOk es := by
  cases e <;> (try cases ‹Outcome›) <;> simp [countOk] <;> try omega

/-- Splitting the failure count of a trace at its head. -/
theorem countErr_cons (e : Event) (es : List Event) :
    countErr (e :: es) = countErr [e] + countErr es := by
  cases e <;> (try cases ‹Outcome›) <;> simp [countErr] <;> try omega

/-- Claim C6 (confirmed): along any run of worker steps, every executed
task that returns bumps the completed counter exactly once and the failed
counter exactly once iff it returned an error, so the final completed count
is the initial one plus the number of successes plus the number of
failures, the final failed count is the initial one plus the number of
failures, and neither counter ever decreases. -/
theorem c6_counter_identity (wp : WorkerPool) (ph : Phase)
    (cs : List (Bool × Bool)) :
    (runSteps wp ph cs).1.completedTasks =
      wp.completedTasks + countOk (runSteps wp ph cs).2.2 +
        countErr (runSteps wp ph cs).2.2 ∧
    (runSteps wp ph cs).1.failedTasks =
      wp.failedTasks + countErr (runSteps wp ph cs).2.2 ∧
    wp.completedTasks ≤ (runSteps wp ph cs).1.completedTasks ∧
    wp.failedTasks ≤ (runSteps wp ph cs).1.failedTasks := by
  induction cs generalizing wp ph with
  | nil => simp [runSteps, countOk, countErr]
  | cons c cs ih =>
    obtain ⟨h1, h2⟩ := workerStep_counts wp ph c.1 c.2
      (workerStep wp ph c.1 c.2).1 (workerStep wp ph c.1 c.2).2.1
      (workerStep wp ph c.1 c.2).2.2 rfl
    have hr := ih (workerStep wp ph c.1 c.2).1 (workerStep wp ph c.1 c.2).2.1
    simp only [runSteps]
    rw [countOk_cons, countErr_cons]
    omega

/-- The worker-start loop adds exactly `n` to the active-worker count. -/
theorem startWorkers_active (n : Nat) (wp : WorkerPool) :
    (startWorkers n wp).activeWorkers = wp.activeWorkers + n := by
  induction n generalizing wp with
  | zero => rfl
  | succ k ih =>
    simp only [startWorkers]
    rw [ih]
    simp only [startWorker]
    omega

/-- Exhaustive description of one autoscaler adjustment. -/
theorem adjustWorkers_cases (wp : WorkerPool) :
    (wp.isRunning = false ∧ adjustWorkers wp = wp) ∨
    (wp.isRunning = true ∧
      ¬(wp.taskQueue.length > wp.activeWorkers ∧
          wp.activeWorkers < wp.maxWorkers) ∧
      adjustWorkers wp = wp) ∨
    (wp.isRunning = true ∧
      wp.taskQueue.length > wp.activeWorkers ∧
      wp.activeWorkers < wp.maxWorkers ∧
      (adjustWorkers wp).activeWorkers =
        wp.activeWorkers +
          min wp.activeWorkers (wp.maxWorkers - wp.activeWorkers)) := by
  by_cases h1 : wp.isRunning = false
  · exact Or.inl ⟨h1, by simp [adjustWorkers, h1]⟩
  · have h1' : wp.isRunning = true := by
      cases hv : wp.isRunning
      · exact absurd hv h1
      · rfl
    by_cases h2 : wp.taskQueue.length > wp.activeWorkers ∧
        wp.activeWorkers < wp.maxWorkers
    · refine Or.inr (Or.inr ⟨h1', h2.1, h2.2, ?_⟩)
      simp only [adjustWorkers]
      rw [if_neg h1, if_pos h2]
      by_cases h3 :
          min wp.activeWorkers (wp.maxWorkers - wp.activeWorkers) > 0
      · rw [if_pos h3, startWorkers_active]
      · rw [if_neg h3]
        omega
    · refine Or.inr (Or.inl ⟨h1', h2, ?_⟩)
      simp only [adjustWorkers]
      rw [if_neg h1, if_neg h2]

/-- Claim C8 (confirmed): an autoscaler tick changes nothing when the pool
is not running; when it is, with queue size `q` and worker count `w`, it
starts exactly `min w (maxWorkers − w)` workers when `q > w` and
`w < maxWorkers` and none otherwise, so the worker count at most doubles
and — whenever it respected the cap before — never exceeds `maxWorkers`. -/
theorem c8_autoscaler_tick (wp : WorkerPool) :
    (wp.isRunning = false → adjustWorkers wp = wp) ∧
    (wp.isRunning = true → wp.taskQueue.length > wp.activeWorkers →
      wp.activeWorkers < wp.maxWorkers →
      (adjustWorkers wp).activeWorkers =
        wp.activeWorkers +
          min wp.activeWorkers (wp.maxWorkers - wp.activeWorkers)) ∧
    (wp.isRunning = true →
      ¬(wp.taskQueue.length > wp.activeWorkers ∧
          wp.activeWorkers < wp.maxWorkers) →
      adjustWorkers wp = wp) ∧
    (adjustWorkers wp).activeWorkers ≤ 2 * wp.activeWorkers ∧
    (wp.activeWorkers ≤ wp.maxWorkers →
      (adjustWorkers wp).activeWorkers ≤ wp.maxWorkers) := by
  rcases adjustWorkers_cases wp with ⟨h1, he⟩ | ⟨h1, hn, he⟩ | ⟨h1, hq, hw, he⟩
  · rw [he]
    refine ⟨fun _ => rfl, fun hr => absurd h1 (by simp [hr]), fun _ _ => rfl,
      by omega, fun h => h⟩
  · rw [he]
    refine ⟨fun _ => rfl, fun _ hq hw => absurd ⟨hq, hw⟩ hn, fun _ _ => rfl,
      by omega, fun h => h⟩
  · refine ⟨fun hr => absurd hr (by simp [h1]), fun _ _ _ => he,
      fun _ hn => absurd ⟨hq, hw⟩ hn, by omega, fun h => by omega⟩

/-- Witness for claim C8 at two concrete states: the backlogged running
pool doubles from one worker to two, and the paused pool is untouched. -/
theorem c8_autoscaler_tick_witness :
    (adjustWorkers poolBacklog).activeWorkers =
      poolBacklog.activeWorkers +
        min poolBacklog.activeWorkers
          (poolBacklog.maxWorkers - poolBacklog.activeWorkers) ∧
    adjustWorkers poolPaused = poolPaused :=
  ⟨(c8_autoscaler_tick poolBacklog).2.1 rfl (by decide) (by decide),
   (c8_autoscaler_tick poolPaused).1 rfl⟩

/-- Every option other than `WithDefaultTaskTimeout` leaves the default
task timeout alone. -/
theorem applyOption_taskTimeout (wp : WorkerPool) (o : PoolOption)
    (h : ∀ d, o ≠ PoolOption.withDefaultTaskTimeout d) :
    (applyOption wp o).taskTimeout = wp.taskTimeout := by
  cases o with
  | withName s => rfl
  | withLogger => rfl
  | withMetrics => rfl
  | withQueueCapacity n => rfl
  | withAutoScaling => rfl
  | withPanicHandler isNil => rfl
  | withDefaultTaskTimeout d => exact absurd rfl (h d)

/-- Folding a list of options free of `WithDefaultTaskTimeout` preserves
the default task timeout. -/
theorem foldl_applyOption_taskTimeout (opts : List PoolOption)
    (wp : WorkerPool)
    (h : ∀ d, PoolOption.withDefaultTaskTimeout d ∉ opts) :
    (opts.foldl applyOption wp).taskTimeout = wp.taskTimeout := by
  induction opts generalizing wp with
  | nil => rfl
  | cons o os ih =>
    rw [List.foldl_cons,
      ih _ (fun d hd => h d (List.mem_cons_of_mem o hd)),
      applyOption_taskTimeout wp o
        (fun d he => h d (by rw [← he]; exact List.mem_cons_self o os))]

/-- Claim C9 (confirmed): a pool constructed without a
`WithDefaultTaskTimeout` option gets the constructor's 30-second default,
so a task whose own timeout is 0 is executed under a deadline of 30 seconds
composed with the root cancellation, not unbounded. -/
theorem c9_default_timeout_30s (m M : Int) (opts : List PoolOption)
    (h : ∀ d, PoolOption.withDefaultTaskTimeout d ∉ opts) :
    (NewWorkerPool m M opts).taskTimeout = 30 * second ∧
    deriveDeadline (NewWorkerPool m M opts).taskTimeout 0 =
      Deadline.withTimeout (30 * second) := by
  have h1 : (NewWorkerPool m M opts).taskTimeout = 30 * second := by
    simp only [NewWorkerPool]
    rw [foldl_applyOption_taskTimeout opts _ h]
  refine ⟨h1, ?_⟩
  rw [h1]
  decide

/-- Witness for claim C9 at a concrete constructor call whose option list
has no default-timeout option. -/
theorem c9_default_timeout_30s_witness :
    (NewWorkerPool 1 2 [PoolOption.withAutoScaling]).taskTimeout =
      30 * second ∧
    deriveDeadline
        (NewWorkerPool 1 2 [PoolOption.withAutoScaling]).taskTimeout 0 =
      Deadline.withTimeout (30 * second) :=
  c9_default_timeout_30s 1 2 [PoolOption.withAutoScaling]
    (by intro d hd; simp at hd)

end Workerpool
